import Mathlib

/-!
Formal model of the VFS booking automation scripts.

This file gives a shallow embedding, in Lean, of the decision logic of the
three Python scripts of the repository:

* `run_booking.py`   (selenium / undetected-chromedriver script; the file also
  contains a second, playwright-based variant appended after its entry point —
  all functions modelled here are from the first, selenium variant, which is
  the one the claims cite),
* `unified_booking.py` (multi-client selenium bot, parallel or sequential),
* `book_vfs.py`      (class-based selenium bot, `VFSBot`).

Browser effects (element lookup, script execution, clicking, typing) are
abstracted as environments: a page is a function from a selector string to
what the browser would report for it, and a primitive browser call that can
raise is a value of an explicit `Prim` type (`ok`/`exn`).  Wall-clock loops
(`while time < deadline`) are modelled as fuel-indexed recursion where one
unit of fuel is one iteration of the loop (one poll cycle / one sleep).
Python exceptions are modelled with `Except Unit`: an uncaught exception is
`.error ()`, and a Python `try/except` is an explicit handler on that value.
-/

/-! ## String helpers (Python `in`, `.lower()`, `.strip()`) -/

/-- Whether `pat` occurs at the start of `l` (character-wise). -/
def leadsWith : List Char → List Char → Bool
  | [], _ => true
  | _ :: _, [] => false
  | a :: as, b :: bs => a == b && leadsWith as bs

/-- Whether `needle` occurs as a contiguous subsequence of `hay`
(Python's `needle in hay` on strings). -/
def containsSeq (needle : List Char) : List Char → Bool
  | [] => needle.isEmpty
  | c :: rest => leadsWith needle (c :: rest) || containsSeq needle rest

/-- Python `needle in hay` for strings. -/
def strContains (hay needle : String) : Bool :=
  containsSeq needle.data hay.data

/-- Python `str.lower()` (ASCII model). -/
def lowerStr (s : String) : String :=
  ⟨s.data.map Char.toLower⟩

/-! ## run_booking.py — availability detection (`is_cloudflare_block`,
`slots_available`) -/

/-- `run_booking.is_cloudflare_block`: the fixed marker list checked against
the lowercased page source. -/
def rb_cf_indicators : List String :=
  ["checking your browser", "ddos protection by cloudflare", "cf-challenge",
   "cf-browser-verification", "just a moment", "cloudflare ray id",
   "acesso restrito", "atividade incomum", "403201"]

/-- `run_booking.is_cloudflare_block(driver)`: any indicator occurs in the
lowercased page source. -/
def rb_is_cloudflare_block (content : String) : Bool :=
  rb_cf_indicators.any (fun i => strContains (lowerStr content) i)

/-- Negative availability phrases of `run_booking.slots_available`. -/
def rb_negative_phrases : List String :=
  ["no appointment", "no slots available", "fully booked",
   "there are currently no", "not available at this time"]

/-- Positive slot selectors of `run_booking.slots_available`. -/
def rb_positive_selectors : List String :=
  ["[data-testid=\"appointment-slot\"]", ".appointment-slot", ".available-slot",
   ".calendar-day.available", "input[type=\"radio\"][name*=\"slot\"]",
   "input[type=\"radio\"][name*=\"appointment\"]", "mat-radio-button"]

/-- Positive content phrases of `run_booking.slots_available`. -/
def rb_positive_phrases : List String :=
  ["select time", "available dates", "choose a slot", "pick a date",
   "appointment available"]

/-- Abstraction of a rendered page as seen by the selenium script:
its source text, and for each CSS selector whether `find_elements`
returns at least one displayed element. -/
structure RbPage where
  content : String
  visibleMatch : String → Bool

/-- `run_booking.slots_available(driver)`: Cloudflare block means
unavailable; then negative phrases; then positive selectors; then
positive phrases; default unavailable. -/
def rb_slots_available (p : RbPage) : Bool :=
  let low := lowerStr p.content
  if rb_is_cloudflare_block p.content then false
  else if rb_negative_phrases.any (fun ph => strContains low ph) then false
  else if rb_positive_selectors.any p.visibleMatch then true
  else if rb_positive_phrases.any (fun ph => strContains low ph) then true
  else false

/-! ## book_vfs.py — `VFSBot._count_slots` -/

/-- Negative phrases of `book_vfs.VFSBot._count_slots`. -/
def vfs_no_avail_phrases : List String :=
  ["no appointments available", "no slots available", "fully booked",
   "there are no available", "appointments are not available",
   "não existem", "no appointment"]

/-- Slot-element selectors of `book_vfs.VFSBot._count_slots`. -/
def vfs_slot_selectors : List String :=
  ["mat-calendar .mat-calendar-body-cell:not(.mat-calendar-body-disabled)",
   "mat-calendar button:not([disabled]):not(.mat-calendar-body-disabled)",
   ".vfs-slot-available", ".slot-available", ".appointment-slot",
   "input[type=\"radio\"][name*=\"slot\"]:not([disabled])",
   "input[type=\"radio\"][name*=\"date\"]:not([disabled])",
   ".available-date", ".available-slot", ".calendar-day.available",
   ".calendar-day.bookable"]

/-- Positive phrases of `book_vfs.VFSBot._count_slots`. -/
def vfs_positive_phrases : List String :=
  ["select a date", "choose appointment", "available appointment",
   "book appointment", "select time slot", "available dates"]

/-- Abstraction of a page for `book_vfs`: source text plus, per selector,
how many elements `_find_els` returns (no visibility filter there). -/
structure VfsPage where
  content : String
  elCount : String → Nat

/-- First selector in the list whose element count is nonzero, with that
count (the `for sel in slot_selectors: if els: return len(els)` loop). -/
def firstPositiveCount (cnt : String → Nat) : List String → Option Nat
  | [] => none
  | s :: rest => if cnt s ≠ 0 then some (cnt s) else firstPositiveCount cnt rest

/-- `book_vfs.VFSBot._count_slots`: negative phrases short-circuit to 0;
otherwise the first selector with elements gives the count; otherwise a
positive phrase gives 1; otherwise 0. -/
def vfs_count_slots (p : VfsPage) : Nat :=
  let low := lowerStr p.content
  if vfs_no_avail_phrases.any (fun ph => strContains low ph) then 0
  else
    match firstPositiveCount p.elCount vfs_slot_selectors with
    | some n => n
    | none =>
      if vfs_positive_phrases.any (fun ph => strContains low ph) then 1
      else 0

/-! ## Concrete pages used as witnesses -/

/-- A page whose source holds both a negative phrase and positive signals:
matching selectors everywhere and a positive phrase. -/
def c1PageRb : RbPage :=
  { content := "Sorry, no appointment slots. But do select time below!",
    visibleMatch := fun _ => true }

/-- Same situation for the `book_vfs` detector: negative phrase present,
every slot selector counts 3 elements, and a positive phrase present. -/
def c1PageVfs : VfsPage :=
  { content := "fully booked ... book appointment", elCount := fun _ => 3 }

/-! ## run_booking.py — `find_first` and unified_booking.py — `_wait`
(locator resolution) -/

/-- One pass of `find_first`'s inner `for sel in selectors` loop: the first
selector that resolves to a displayed element wins.  `vis sel` is what the
browser reports for `sel`: `some e` a displayed element, `none` otherwise
(absent, or present but not displayed — both are skipped by the source). -/
def scan_once (vis : String → Option Nat) : List String → Option Nat
  | [] => none
  | s :: rest =>
    match vis s with
    | some e => some e
    | none => scan_once vis rest

/-- `run_booking.find_first(driver, selectors, timeout)`: repeat the scan
until the deadline; one unit of fuel is one `while` iteration (one 0.4 s
sleep).  Returns `none` (Python `None`) when the timeout elapses with every
candidate failing. -/
def find_first (vis : String → Option Nat) (sels : List String) : Nat → Option Nat
  | 0 => none
  | fuel + 1 =>
    match scan_once vis sels with
    | some e => some e
    | none => find_first vis sels fuel

/-- One pass of `unified_booking._wait`'s inner loop; it returns the pair
`(el, sel)` of the element and the selector that matched. -/
def u_scan_once (vis : String → Option Nat) : List String → Option (Nat × String)
  | [] => none
  | s :: rest =>
    match vis s with
    | some e => some (e, s)
    | none => u_scan_once vis rest

/-- `unified_booking._wait(driver, selectors, timeout)`: like `find_first`
but polls every 0.15 s and returns `(el, sel)`; `none` models the
`(None, None)` timeout result. -/
def u_wait (vis : String → Option Nat) (sels : List String) : Nat → Option (Nat × String)
  | 0 => none
  | fuel + 1 =>
    match u_scan_once vis sels with
    | some r => some r
    | none => u_wait vis sels fuel

/-- A static fixture page for the resolver witness: only selector "b"
resolves (to element 7). -/
def c8vis : String → Option Nat :=
  fun s => if s = "b" then some 7 else none

/-! ## book_vfs.py — `VFSBot.wait_for_availability` and
run_booking.py — `monitor_and_book` (availability polling) -/

/-- Loop body of `wait_for_availability`: `polls` is the number of poll
cycles already completed (the source's `poll` counter), `slotsAt k` is what
`_count_slots` returns on the page as refreshed at cycle `k`.  One unit of
fuel is one `while datetime.now() < deadline` iteration.  Returns the
success flag together with the number of polls performed. -/
def vfs_wait_go (slotsAt : Nat → Nat) : Nat → Nat → Bool × Nat
  | 0, polls => (false, polls)
  | fuel + 1, polls =>
    if slotsAt polls > 0 then (true, polls + 1)
    else vfs_wait_go slotsAt fuel (polls + 1)

/-- `book_vfs.VFSBot.wait_for_availability(minutes)`: poll up to `maxPolls`
times, returning `True` as soon as `_count_slots() > 0`. -/
def vfs_wait_for_availability (slotsAt : Nat → Nat) (maxPolls : Nat) : Bool × Nat :=
  vfs_wait_go slotsAt maxPolls 0

/-- Loop body of `run_booking.monitor_and_book`: at each cycle the booking
page is reloaded (`pages k` is the page observed at cycle `k`); a
Cloudflare block `continue`s, an available page books `clients[:max_clients]`
immediately and returns those results, anything else sleeps and re-polls.
Clients and results are abstracted as naturals with `book` the per-client
`book_client` outcome. -/
def rb_monitor_go (pages : Nat → RbPage) (clients : List Nat) (book : Nat → Nat)
    (maxClients : Nat) : Nat → Nat → List Nat × Nat
  | 0, polls => ([], polls)
  | fuel + 1, polls =>
    if rb_is_cloudflare_block (pages polls).content then
      rb_monitor_go pages clients book maxClients fuel (polls + 1)
    else if rb_slots_available (pages polls) then
      ((clients.take maxClients).map book, polls + 1)
    else rb_monitor_go pages clients book maxClients fuel (polls + 1)

/-- `run_booking.monitor_and_book(driver, clients, max_clients,
monitor_minutes)`: returns the booked results (empty when the window
expires) together with the number of checks performed. -/
def rb_monitor_and_book (pages : Nat → RbPage) (clients : List Nat)
    (book : Nat → Nat) (maxClients maxPolls : Nat) : List Nat × Nat :=
  rb_monitor_go pages clients book maxClients maxPolls 0

/-- Witness slot counts: the first slots appear at poll cycle 1. -/
def c4slots : Nat → Nat :=
  fun k => if k = 1 then 2 else 0

/-- Witness pages: cycle 0 shows a fully-booked page, cycle 1 (and later)
shows a page with the positive phrase "select time". -/
def c4pages : Nat → RbPage :=
  fun k =>
    if k = 0 then { content := "Sorry, fully booked", visibleMatch := fun _ => false }
    else { content := "please select time today", visibleMatch := fun _ => false }

/-- Witness client list and per-client booking outcome. -/
def c4clients : List Nat := [8, 9]

/-- Witness `book_client` abstraction. -/
def c4book : Nat → Nat := fun c => c + 1

/-- C1: in both availability detectors, any negative phrase in the page
content forces the unavailable verdict, regardless of positive selectors
or positive phrases also matching on the same page. -/
theorem C1_negative_phrase_precedence (p : RbPage) (q : VfsPage)
    (h1 : rb_negative_phrases.any
      (fun ph => strContains (lowerStr p.content) ph) = true)
    (h2 : vfs_no_avail_phrases.any
      (fun ph => strContains (lowerStr q.content) ph) = true) :
    rb_slots_available p = false ∧ vfs_count_slots q = 0 := by
  constructor
  · cases hcf : rb_is_cloudflare_block p.content <;>
      simp [rb_slots_available, hcf, h1]
  · simp [vfs_count_slots, h2]

/-- C1 witness: a concrete page containing the negative phrase
"no appointment" together with matching positive selectors and the
positive phrase "select time" is still reported unavailable; likewise a
concrete `book_vfs` page with "fully booked" and slot elements counts 0. -/
theorem C1_witness :
    rb_slots_available c1PageRb = false ∧ vfs_count_slots c1PageVfs = 0 :=
  C1_negative_phrase_precedence c1PageRb c1PageVfs (by decide) (by decide)

/-! ## run_booking.py — `book_client` terminal classification -/

/-- What `run_booking.book_client` observes after submitting the form:
the three reference-extraction fallbacks (CSS selector chain, XPath phrase
chain, uppercase-run regex on the page source), and the two substring
tests on the final URL ("book-appointment" and "/login"). -/
structure RbConfirm where
  refSel : Option String
  refPhrase : Option String
  refRegex : Option String
  urlHasForm : Bool
  urlHasLogin : Bool

/-- The reference-extraction cascade of `run_booking.book_client`,
including the final `# Off-form-page = success` step: with no reference
found and a URL off both the booking form and the login page, the
reference is set to the literal "CONFIRMED". -/
def rb_extract_ref (e : RbConfirm) : Option String :=
  match e.refSel with
  | some t => some t
  | none =>
    match e.refPhrase with
    | some t => some t
    | none =>
      match e.refRegex with
      | some t => some t
      | none =>
        if !e.urlHasForm && !e.urlHasLogin then some "CONFIRMED" else none

/-- The per-client result dict of `run_booking.book_client` (its terminal
fields; name/email/timestamp omitted). -/
structure RbResult where
  success : Bool
  reference : Option String
  error : Option String

/-- Terminal classification of `run_booking.book_client`: any extracted
reference (including the synthesised "CONFIRMED") means success; none
means failure with an error message. -/
def rb_book_client_outcome (e : RbConfirm) : RbResult :=
  match rb_extract_ref e with
  | some r => { success := true, reference := some r, error := none }
  | none => { success := false, reference := none,
              error := some "No confirmation found" }

/-- A submitted run with no reference found by any extractor and a final
URL off both the form path and the login path. -/
def c2env : RbConfirm :=
  { refSel := none, refPhrase := none, refRegex := none,
    urlHasForm := false, urlHasLogin := false }

/-! ## unified_booking.py — `book_client` terminal classification -/

/-- The status strings written by `unified_booking.book_client`. -/
inductive UStatus
  | BOOKED
  | SUBMITTED
  | FAILED
  deriving DecidableEq

/-- Terminal classification of `unified_booking.book_client`: login and
steps 1–2 failing yield FAILED; otherwise a reference from step 5 yields
BOOKED and its absence yields SUBMITTED. -/
def u_book_client_status (loginOk step1Ok step2Ok : Bool)
    (ref : Option String) : UStatus :=
  if !loginOk then .FAILED
  else if !step1Ok then .FAILED
  else if !step2Ok then .FAILED
  else
    match ref with
    | some _ => .BOOKED
    | none => .SUBMITTED

/-! ## Slot selection: book_vfs.py `fill_booking_form` step 4 and
unified_booking.py `do_step3_book_appointment` -/

/-- The index computed by `book_vfs.fill_booking_form`:
`idx = slot_index % len(slots)`. -/
def vfs_slot_index (slot_index : Nat) (slots : List Nat) : Nat :=
  slot_index % slots.length

/-- Time-slot selection of `book_vfs.fill_booking_form` step 4: if the
enumerated slot list is nonempty, click `slots[slot_index % len(slots)]`
(`VFSBot.run` passes the client ordinal as `slot_index`). -/
def vfs_choose_slot (slot_index : Nat) (slots : List Nat) : Option Nat :=
  if slots.isEmpty then none else slots.get? (vfs_slot_index slot_index slots)

/-- Slot selection of `unified_booking.do_step3_book_appointment`: the
`first_slot` selectors all resolve `:first-of-type`, i.e. the first
available slot element in DOM order, whatever the subject ordinal. -/
def unified_choose_slot (slots : List Nat) : Option Nat :=
  slots.head?

/-! ## Challenge-clearance waits and login flows -/

/-- `unified_booking._wait_cf`: poll every 0.8 s until the interstitial
markers disappear; `cfActive k` tells whether the markers are present at
check `k`.  Returns `True` on clearance, `False` on timeout. -/
def u_wait_cf (cfActive : Nat → Bool) : Nat → Nat → Bool
  | 0, _ => false
  | fuel + 1, k => if cfActive k then u_wait_cf cfActive fuel (k + 1) else true

/-- `_wait_cf` with its source budget: CF_POLL_MAX = 120 s at one check per
0.8 s sleep, i.e. 150 checks. -/
def u_wait_cf_run (cfActive : Nat → Bool) : Bool :=
  u_wait_cf cfActive 150 0

/-- `run_booking.wait_cf_pass(driver, timeout_s)`: poll every 3 s until
`is_cloudflare_block` turns false; `False` on timeout. -/
def rb_wait_cf_pass (cfActive : Nat → Bool) : Nat → Nat → Bool
  | 0, _ => false
  | fuel + 1, k => if cfActive k then rb_wait_cf_pass cfActive fuel (k + 1) else true

/-- An interstitial that never clears. -/
def cfAlwaysOn : Nat → Bool := fun _ => true

/-- A page with no interstitial at all. -/
def cfNever : Nat → Bool := fun _ => false

/-- The login page as seen by `unified_booking.do_login`: whether the two
credential fields resolve, whether a post-login dashboard marker resolves,
and whether the URL still contains "/login". -/
structure ULoginPage where
  emailField : Bool
  pwdField : Bool
  postMarker : Bool
  urlHasLogin : Bool

/-- `unified_booking.do_login`: navigates, calls `_wait_cf(driver)` AS A
BARE STATEMENT (its Boolean is discarded), then proceeds: missing fields
fail; a dashboard marker succeeds; staying on "/login" fails; otherwise it
logs "Continuing anyway" and succeeds. -/
def u_do_login (cfActive : Nat → Bool) (p : ULoginPage) : Bool :=
  let _cleared := u_wait_cf_run cfActive
  if !p.emailField || !p.pwdField then false
  else if p.postMarker then true
  else if p.urlHasLogin then false
  else true

/-- The login page as seen by `run_booking.do_login`: whether the first
page load is a Cloudflare block, whether the credential fields resolve,
whether the URL left "/login" right after submit, whether an inline error
is shown, and whether the URL left "/login" after the extra wait. -/
structure RbLoginPage where
  cfAtLoad : Bool
  emailField : Bool
  pwdField : Bool
  leftLogin : Bool
  errorShown : Bool
  leftLoginLate : Bool

/-- `run_booking.do_login`: if the first load is a Cloudflare block and
`wait_cf_pass(driver, 60)` (20 checks at 3 s) times out, it returns False
immediately; otherwise it proceeds with the field/URL checks. -/
def rb_do_login (cfActive : Nat → Bool) (p : RbLoginPage) : Bool :=
  if p.cfAtLoad && !rb_wait_cf_pass cfActive 20 0 then false
  else if !p.emailField then false
  else if !p.pwdField then false
  else if p.leftLogin then true
  else if p.errorShown then false
  else if p.leftLoginLate then true
  else false

/-- A login page that would log in fine: Cloudflare gate at load, both
fields present, navigation leaves the login URL after submit. -/
def rbGoodLogin : RbLoginPage :=
  { cfAtLoad := true, emailField := true, pwdField := true,
    leftLogin := true, errorShown := false, leftLoginLate := true }

/-- The same page without the initial Cloudflare block. -/
def rbGoodLoginNoCf : RbLoginPage :=
  { rbGoodLogin with cfAtLoad := false }

/-- A unified-login page used in the C5 witness. -/
def uLoginEx : ULoginPage :=
  { emailField := true, pwdField := true, postMarker := true,
    urlHasLogin := false }

/-! ## Browsing contexts per subject -/

/-- A browsing context: the browser instance launched by one
`book_client`/`run` invocation, plus its `--user-data-dir` profile. -/
structure BrowsingContext where
  instanceId : Nat
  profileDir : String
  deriving DecidableEq

/-- `unified_booking.CHROME_PROFILE` base directory. -/
def CHROME_PROFILE : String := "~/.vfs_chrome_profile"

/-- `unified_booking.book_client(client, idx, ...)`: each invocation
launches its own Chrome (indexed here by the subject ordinal `idx` of the
invocation that created it) with profile
`os.path.join(CHROME_PROFILE, f"client_{idx}")`. -/
def u_client_context (idx : Nat) : BrowsingContext :=
  { instanceId := idx,
    profileDir := CHROME_PROFILE ++ "/client_" ++ Nat.repr idx }

/-- `run_booking.monitor_and_book`: every `book_client(driver, client)`
call receives the one shared `driver`; the context used for subject
`subjIdx` is that single driver. -/
def rb_subject_context (driverId : Nat) (_subjIdx : Nat) : Nat :=
  driverId

/-- `book_vfs.VFSBot.run`: every `fill_booking_form(client, i)` call runs
on the single `self.driver` of the bot. -/
def vfs_subject_context (driverId : Nat) (_subjIdx : Nat) : Nat :=
  driverId

/-! ## unified_booking.py — orchestration (`main`) -/

/-- One row of the unified results list: the subject ordinal it belongs to
(the `idx` key of the futures dict / loop counter) and its terminal
status. -/
structure USubjResult where
  idx : Nat
  status : UStatus
  deriving DecidableEq

/-- The placeholder row appended by `main`'s `except` branch when a
subject's thread raised: a FAILED entry for that subject index. -/
def u_placeholder (i : Nat) : USubjResult :=
  { idx := i, status := .FAILED }

/-- What `future.result()` contributes for subject `i` in the parallel
branch: the subject's own result when the thread returned, the FAILED
placeholder when it raised. -/
def u_run_subject (outcome : Nat → UStatus) (raises : Nat → Bool)
    (i : Nat) : USubjResult :=
  if raises i then u_placeholder i else { idx := i, status := outcome i }

/-- `main`'s `--sequential` branch: one `book_client` call per client, in
order (`book_client` returns a result even on exception, via its own
try/except). -/
def u_orchestrate_sequential (outcome : Nat → UStatus) (k : Nat) :
    List USubjResult :=
  (List.range k).map (fun i => { idx := i, status := outcome i })

/-- `main`'s parallel branch: one future per client; `as_completed` yields
each future exactly once in some completion order `order` (a permutation
of the subject ordinals), and each iteration appends exactly one row. -/
def u_orchestrate_parallel (outcome : Nat → UStatus) (raises : Nat → Bool)
    (order : List Nat) : List USubjResult :=
  order.map (u_run_subject outcome raises)

/-- Witness data for C6: two subjects, subject 0's thread raises,
completion order reversed. -/
def c6outcome : Nat → UStatus := fun _ => .BOOKED

/-- Witness: subject 0's runner raises an unhandled exception. -/
def c6raises : Nat → Bool := fun i => i == 0

/-- Witness completion order (completion order ≠ submission order). -/
def c6order : List Nat := [1, 0]

/-- A page that never shows slots, for the C6 counterexample. -/
def c6pages : Nat → RbPage :=
  fun _ => { content := "fully booked", visibleMatch := fun _ => false }

/-- Identity booking abstraction for the C6 counterexample. -/
def c6book : Nat → Nat := fun c => c

/-! ## Field-fill / option-select operations with explicit exception
points.  Each browser primitive that a `try` block of the source guards is
a `Prim` value of the environment: `.ok` it returned, `.exn` it raised.
Textual option matching is abstracted to precomputed match Booleans (the
claim under study concerns fault containment, not match semantics). -/

/-- Result of one browser primitive call: returned a value, or raised. -/
inductive Prim (α : Type)
  | ok (a : α)
  | exn

/-- Running a primitive inside Python control flow: raising becomes an
`Except` error that propagates until some `try/except` catches it. -/
def runPrim {α : Type} : Prim α → Except Unit α
  | .ok a => .ok a
  | .exn => .error ()

/-- A Python `try: <body> except Exception: <handler>` around code that
produces a Bool. -/
def pyTryBool (body : Except Unit Bool) (handler : Except Unit Bool) :
    Except Unit Bool :=
  match body with
  | .ok b => .ok b
  | .error _ => handler

/-- Whether a modelled call completed without an escaping exception. -/
def exceptOk : Except Unit Bool → Bool
  | .ok _ => true
  | .error _ => false

/-- Environment of `unified_booking._js_fill`: whether `_wait` found the
element, the native-setter `execute_script` call (returns the JS Boolean
or raises), and the two parts of the keystroke fallback (the clearing
script, then the send_keys sequence). -/
structure JsFillEnv where
  found : Bool
  script1 : Prim Bool
  clearScript : Prim Unit
  keysSeq : Prim Unit

/-- `unified_booking._js_fill`: empty value or missing element return
False; the JS-setter attempt is tried (its exception passed over); on a
falsy JS result or an exception the keystroke fallback runs inside its own
try, whose except converts any fault to False. -/
def u_js_fill (env : JsFillEnv) (value : String) : Except Unit Bool :=
  if value = "" then .ok false
  else if !env.found then .ok false
  else
    match runPrim env.script1 with
    | .ok true => .ok true
    | _ =>
      pyTryBool
        (do
          runPrim env.clearScript
          runPrim env.keysSeq
          pure true)
        (.ok false)

/-- Environment of `unified_booking._native_select`: whether `_wait` found
a `<select>`, and the guarded body (Select construction, option iteration
and `select_by_visible_text`), returning whether an option matched. -/
structure NativeSelEnv where
  found : Bool
  body : Prim Bool

/-- `unified_booking._native_select`: empty text or missing element return
False; the body runs in a try whose except converts any fault to False. -/
def u_native_select (env : NativeSelEnv) (text : String) : Except Unit Bool :=
  if text = "" then .ok false
  else if !env.found then .ok false
  else pyTryBool (runPrim env.body) (.ok false)

/-- Outcome of clicking an option inside `_mat_select`'s inner loop:
clicked, raised StaleElementReferenceException (caught there, `continue`),
or raised something else (propagates to the outer except). -/
inductive Click3
  | okC
  | staleC
  | exnC

/-- One `mat-option` as consumed by `_mat_select`'s matching loop: its
`innerText` read going stale (caught, `continue`), raising another
exception (propagates to the outer except), or yielding text with
precomputed strict/loose match flags and a click outcome. -/
inductive OptRead
  | gone
  | bad
  | txt (strictMatch looseMatch : Bool) (click : Click3)

/-- Environment of `unified_booking._mat_select`. -/
structure MatSelEnv where
  waited : Bool
  nsFallback : NativeSelEnv
  tagRead : Prim Bool
  nsDelegate : NativeSelEnv
  scroll : Prim Unit
  clickTrigger : Prim Unit
  options : List OptRead
  availRead : Prim Unit
  escapeKey : Prim Unit

/-- The `for opt in options` pass of `_mat_select` at a given strictness:
`some b` models a `return b` inside the loop, `none` falling out of it;
errors are exceptions that escape the loop (only staleness is caught). -/
def u_opt_loop (strict : Bool) : List OptRead → Except Unit (Option Bool)
  | [] => .ok none
  | o :: rest =>
    match o with
    | .gone => u_opt_loop strict rest
    | .bad => .error ()
    | .txt s l c =>
      if (if strict then s else l) then
        match c with
        | .okC => .ok (some true)
        | .staleC => u_opt_loop strict rest
        | .exnC => .error ()
      else u_opt_loop strict rest

/-- `unified_booking._mat_select`: empty text returns False; a missing
mat-select delegates to the native fallback; otherwise the whole body
(tag read, scroll, trigger click, the strict then loose option passes, the
diagnostic read of the first options, the guarded Escape dispatch) runs
inside one try whose except converts any fault to False. -/
def u_mat_select (env : MatSelEnv) (text : String) : Except Unit Bool :=
  if text = "" then .ok false
  else if !env.waited then
    match u_native_select env.nsFallback text with
    | .ok true => .ok true
    | .ok false => .ok false
    | .error e => .error e
  else
    pyTryBool
      (do
        let isSel ← runPrim env.tagRead
        if isSel then
          u_native_select env.nsDelegate text
        else do
          runPrim env.scroll
          runPrim env.clickTrigger
          match ← u_opt_loop true env.options with
          | some b => pure b
          | none =>
            match ← u_opt_loop false env.options with
            | some b => pure b
            | none => do
              runPrim env.availRead
              match env.escapeKey with
              | .ok _ => pure false
              | .exn => pure false)
      (.ok false)

/-- Outcome of `run_booking.mat_select`'s exact-match phase (a
`WebDriverWait` + click guarded by `except TimeoutException` only):
matched and clicked, timed out (pass), or raised something else
(propagates to the outer except). -/
inductive Exact3
  | okE
  | timeoutE
  | exnE

/-- Environment of `run_booking.mat_select`. -/
structure RbMatSelEnv where
  triggerFound : Bool
  scroll : Prim Unit
  clickTrigger : Prim Unit
  exact : Exact3
  looseOpts : Prim (List Bool)
  escapeKey : Prim Unit

/-- The partial-match pass of `run_booking.mat_select`: each option's
iteration is guarded by a broad `except: pass`, so each contributes only
whether it matched and clicked successfully. -/
def rb_loose_loop : List Bool → Bool
  | [] => false
  | b :: rest => b || rb_loose_loop rest

/-- `run_booking.mat_select`: missing trigger returns False; the body
(scroll, trigger click, exact phase, partial pass, unguarded Escape via
the body element) runs inside one try whose `except Exception` converts
any fault to False; falling out of the try returns False. -/
def rb_mat_select (env : RbMatSelEnv) : Except Unit Bool :=
  if !env.triggerFound then .ok false
  else
    pyTryBool
      (do
        runPrim env.scroll
        runPrim env.clickTrigger
        match env.exact with
        | .okE => pure true
        | .exnE => throw ()
        | .timeoutE => do
          let opts ← runPrim env.looseOpts
          if rb_loose_loop opts then pure true
          else do
            runPrim env.escapeKey
            pure false)
      (.ok false)

/-! ## unified_booking.py — `_norm_date` -/

/-- Python whitespace as stripped by `str.strip()` (ASCII model):
space, tab, newline, carriage return, vertical tab, form feed. -/
def pyWs (c : Char) : Bool :=
  c == ' ' || c == '\t' || c == '\n' || c == '\r' || c == '\x0B' || c == '\x0C'

/-- Python `str.strip()`. -/
def pyStrip (s : List Char) : List Char :=
  ((s.dropWhile pyWs).reverse.dropWhile pyWs).reverse

/-- Value of one decimal digit character, if it is one. -/
def digitVal (c : Char) : Option Nat :=
  if c.isDigit then some (c.toNat - 48) else none

/-- Digit-run parsing for Python `int()`: after the first digit, a single
underscore may separate digits; leading, trailing or doubled underscores
are rejected. -/
def pyDigitsAux : List Char → Nat → Option Nat
  | [], acc => some acc
  | c :: rest, acc =>
    if c = '_' then
      match rest with
      | [] => none
      | c2 :: rest2 =>
        match digitVal c2 with
        | some d => pyDigitsAux rest2 (acc * 10 + d)
        | none => none
    else
      match digitVal c with
      | some d => pyDigitsAux rest (acc * 10 + d)
      | none => none

/-- Nonempty digit run (with optional grouping underscores). -/
def pyDigits : List Char → Option Nat
  | [] => none
  | c :: rest =>
    match digitVal c with
    | some d => pyDigitsAux rest d
    | none => none

/-- Python `int(s)` for decimal strings (ASCII model): surrounding
whitespace is stripped, an optional sign is consumed, and the rest must be
a digit run; `none` models the `ValueError`. -/
def pyInt (s : List Char) : Option Int :=
  match pyStrip s with
  | [] => none
  | c :: rest =>
    if c = '+' then (pyDigits rest).map Int.ofNat
    else if c = '-' then (pyDigits rest).map (fun n => -(n : Int))
    else (pyDigits (c :: rest)).map Int.ofNat

/-- The slash branch of `_norm_date`: `return raw if int(d) <= 31 and
int(m) <= 12 else f"{m}/{d}/{y}"`, with Python's short-circuit — `int(m)`
is only evaluated when `int(d) <= 31` — and a `ValueError` from either
`int` call as `.error ()`. -/
def slash_decide (pd pm : Option Int) (keep swap : List Char) :
    Except Unit (List Char) :=
  match pd with
  | none => .error ()
  | some dv =>
    if dv ≤ 31 then
      match pm with
      | none => .error ()
      | some mv => if mv ≤ 12 then .ok keep else .ok swap
    else .ok swap

/-- `_norm_date`'s main dispatch on the stripped string (the slash branch
is `slash_decide` above, applied lazily so that Python's short-circuit
evaluation of `int(d) <= 31 and int(m) <= 12` is preserved). -/
def norm_date_core (r : List Char) : Except Unit (List Char) :=
  if r = [] then .ok r
  else if r.length = 10 ∧ r.get? 2 = some '/' ∧ r.get? 5 = some '/' then
    let d := r.take 2
    let m := (r.drop 3).take 2
    let y := r.drop 6
    slash_decide (pyInt d) (pyInt m) r (m ++ '/' :: (d ++ '/' :: y))
  else if r.length = 10 ∧ r.get? 4 = some '-' ∧ r.get? 7 = some '-' then
    .ok ((r.drop 8) ++ '/' :: (((r.drop 5).take 2) ++ '/' :: (r.take 4)))
  else .ok r

/-- `unified_booking._norm_date(raw)` (the `raw or ""` None-guard is
outside this model's string domain): strip, then normalise. -/
def norm_date (raw : List Char) : Except Unit (List Char) :=
  norm_date_core (pyStrip raw)

/-- `_norm_date` on `String`. -/
def norm_date_str (raw : String) : Except Unit String :=
  (norm_date raw.data).map (fun l => ⟨l⟩)

/-! ## Resolver lemmas and C8 -/

/-- On a static page, one scan returns the value of the first candidate,
in declared order, that resolves. -/
theorem scan_once_pos (vis : String → Option Nat) :
    ∀ (sels : List String) (s : String),
      sels.find? (fun t => (vis t).isSome) = some s →
      scan_once vis sels = vis s := by
  intro sels
  induction sels with
  | nil => intro s h; simp [List.find?] at h
  | cons a rest ih =>
    intro s h
    cases hv : vis a with
    | some e =>
      simp only [List.find?, hv, Option.isSome_some] at h
      cases h
      simp [scan_once, hv]
    | none =>
      simp only [List.find?, hv, Option.isSome_none] at h
      simpa [scan_once, hv] using ih s h

/-- On a static page where no candidate resolves, one scan fails. -/
theorem scan_once_none (vis : String → Option Nat) :
    ∀ sels : List String, (∀ s ∈ sels, vis s = none) →
      scan_once vis sels = none := by
  intro sels
  induction sels with
  | nil => intro _; rfl
  | cons a rest ih =>
    intro h
    have ha := h a (by simp)
    simp [scan_once, ha]
    exact ih fun s hs => h s (by simp [hs])

/-- Same, for the pair-returning `_wait` scan. -/
theorem u_scan_once_pos (vis : String → Option Nat) :
    ∀ (sels : List String) (s : String),
      sels.find? (fun t => (vis t).isSome) = some s →
      u_scan_once vis sels = (vis s).map (fun e => (e, s)) := by
  intro sels
  induction sels with
  | nil => intro s h; simp [List.find?] at h
  | cons a rest ih =>
    intro s h
    cases hv : vis a with
    | some e =>
      simp only [List.find?, hv, Option.isSome_some] at h
      cases h
      simp [u_scan_once, hv]
    | none =>
      simp only [List.find?, hv, Option.isSome_none] at h
      simpa [u_scan_once, hv] using ih s h

/-- `_wait` scan failure when nothing resolves. -/
theorem u_scan_once_none (vis : String → Option Nat) :
    ∀ sels : List String, (∀ s ∈ sels, vis s = none) →
      u_scan_once vis sels = none := by
  intro sels
  induction sels with
  | nil => intro _; rfl
  | cons a rest ih =>
    intro h
    have ha := h a (by simp)
    simp [u_scan_once, ha]
    exact ih fun s hs => h s (by simp [hs])

/-- When every candidate fails on a static page, `find_first` returns
`none` for every fuel budget. -/
theorem find_first_none (vis : String → Option Nat) (sels : List String)
    (h : ∀ s ∈ sels, vis s = none) :
    ∀ fuel, find_first vis sels fuel = none := by
  intro fuel
  induction fuel with
  | zero => rfl
  | succ n ih => simp [find_first, scan_once_none vis sels h, ih]

/-- Same for `_wait`. -/
theorem u_wait_none (vis : String → Option Nat) (sels : List String)
    (h : ∀ s ∈ sels, vis s = none) :
    ∀ fuel, u_wait vis sels fuel = none := by
  intro fuel
  induction fuel with
  | zero => rfl
  | succ n ih => simp [u_wait, u_scan_once_none vis sels h, ih]

/-- C8: on a static page, if any candidate of the spec resolves then both
resolvers (`run_booking.find_first` and `unified_booking._wait`) return,
already on the first poll cycle, the element of the first candidate in
declared order that matches; and they return NotFound (`none`) only when
every candidate fails throughout the timeout. -/
theorem C8_resolver_order (vis : String → Option Nat) (sels : List String)
    (fuel : Nat) (hf : fuel ≠ 0) :
    (∀ s : String, sels.find? (fun t => (vis t).isSome) = some s →
        find_first vis sels fuel = vis s ∧
        (u_wait vis sels fuel).map Prod.fst = vis s) ∧
    ((∀ s ∈ sels, vis s = none) →
        find_first vis sels fuel = none ∧ u_wait vis sels fuel = none) := by
  obtain ⟨n, rfl⟩ : ∃ n, fuel = n + 1 := by
    cases fuel with
    | zero => exact absurd rfl hf
    | succ n => exact ⟨n, rfl⟩
  constructor
  · intro s h
    have hsome := List.find?_some h
    simp only [] at hsome
    obtain ⟨e, he⟩ := Option.isSome_iff_exists.mp hsome
    constructor
    · simp [find_first, scan_once_pos vis sels s h, he]
    · simp [u_wait, u_scan_once_pos vis sels s h, he]
  · intro h
    exact ⟨find_first_none vis sels h _, u_wait_none vis sels h _⟩

/-- C8 witness: on the fixture page where only candidate "b" resolves,
both resolvers return element 7 via candidate "b" (the first matching
candidate in order of ["a", "b", "c"]). -/
theorem C8_witness :
    find_first c8vis ["a", "b", "c"] 3 = c8vis "b" ∧
    (u_wait c8vis ["a", "b", "c"] 3).map Prod.fst = c8vis "b" :=
  (C8_resolver_order c8vis ["a", "b", "c"] 3 (by decide)).1 "b" (by decide)

/-! ## Polling lemmas and C4 -/

/-- If slots first appear at cycle `t` (relative to the current poll count)
and there is fuel to reach it, the wait loop stops right there. -/
theorem vfs_wait_go_first_pos (slotsAt : Nat → Nat) :
    ∀ (t fuel polls : Nat), t < fuel →
      (∀ j, j < t → slotsAt (polls + j) = 0) →
      0 < slotsAt (polls + t) →
      vfs_wait_go slotsAt fuel polls = (true, polls + t + 1) := by
  intro t
  induction t with
  | zero =>
    intro fuel polls hf h0 hpos
    cases fuel with
    | zero => omega
    | succ n =>
      simp only [Nat.add_zero] at hpos
      simp [vfs_wait_go, hpos]
  | succ t ih =>
    intro fuel polls hf h0 hpos
    cases fuel with
    | zero => omega
    | succ n =>
      have hz : slotsAt polls = 0 := by
        have := h0 0 (Nat.succ_pos t)
        simpa using this
      have step : vfs_wait_go slotsAt (n + 1) polls
          = vfs_wait_go slotsAt n (polls + 1) := by
        simp [vfs_wait_go, hz]
      rw [step]
      have h0' : ∀ j, j < t → slotsAt (polls + 1 + j) = 0 := by
        intro j hj
        have := h0 (j + 1) (by omega)
        have harg : polls + (j + 1) = polls + 1 + j := by omega
        rwa [harg] at this
      have hpos' : 0 < slotsAt (polls + 1 + t) := by
        have harg : polls + (t + 1) = polls + 1 + t := by omega
        rwa [harg] at hpos
      have := ih n (polls + 1) (by omega) h0' hpos'
      rw [this]
      congr 1
      omega

/-- If every cycle before `t` is blocked or unavailable and cycle `t` is a
clean available page, the monitoring loop books right at cycle `t`. -/
theorem rb_monitor_go_first_pos (pages : Nat → RbPage) (clients : List Nat)
    (book : Nat → Nat) (maxClients : Nat) :
    ∀ (t fuel polls : Nat), t < fuel →
      (∀ j, j < t → rb_is_cloudflare_block (pages (polls + j)).content = true ∨
        rb_slots_available (pages (polls + j)) = false) →
      rb_is_cloudflare_block (pages (polls + t)).content = false →
      rb_slots_available (pages (polls + t)) = true →
      rb_monitor_go pages clients book maxClients fuel polls
        = ((clients.take maxClients).map book, polls + t + 1) := by
  intro t
  induction t with
  | zero =>
    intro fuel polls hf hbad hcf hav
    cases fuel with
    | zero => omega
    | succ n =>
      simp only [Nat.add_zero] at hcf hav
      simp [rb_monitor_go, hcf, hav]
  | succ t ih =>
    intro fuel polls hf hbad hcf hav
    cases fuel with
    | zero => omega
    | succ n =>
      have hb := hbad 0 (Nat.succ_pos t)
      simp only [Nat.add_zero] at hb
      have step : rb_monitor_go pages clients book maxClients (n + 1) polls
          = rb_monitor_go pages clients book maxClients n (polls + 1) := by
        rcases hb with hb | hb
        · simp [rb_monitor_go, hb]
        · cases hcf0 : rb_is_cloudflare_block (pages polls).content with
          | true => simp [rb_monitor_go, hcf0]
          | false => simp [rb_monitor_go, hcf0, hb]
      rw [step]
      have hbad' : ∀ j, j < t →
          rb_is_cloudflare_block (pages (polls + 1 + j)).content = true ∨
          rb_slots_available (pages (polls + 1 + j)) = false := by
        intro j hj
        have := hbad (j + 1) (by omega)
        have harg : polls + (j + 1) = polls + 1 + j := by omega
        rwa [harg] at this
      have harg : polls + (t + 1) = polls + 1 + t := by omega
      rw [harg] at hcf hav
      have := ih n (polls + 1) (by omega) hbad' hcf hav
      rw [this]
      congr 1
      omega

/-- C4: if the availability signal first becomes positive at poll cycle `t`
inside the window, both polling loops (`book_vfs.wait_for_availability` and
`run_booking.monitor_and_book`) return success at that very cycle — after
exactly `t + 1` checks, with no further polling sleep — instead of running
to the deadline. -/
theorem C4_first_positive_cycle (slotsAt : Nat → Nat) (pages : Nat → RbPage)
    (clients : List Nat) (book : Nat → Nat) (maxClients maxPolls t : Nat)
    (ht : t < maxPolls)
    (hpre : ∀ j, j < t → slotsAt j = 0)
    (hpos : 0 < slotsAt t)
    (hpre2 : ∀ j, j < t → rb_is_cloudflare_block (pages j).content = true ∨
      rb_slots_available (pages j) = false)
    (hcf : rb_is_cloudflare_block (pages t).content = false)
    (hav : rb_slots_available (pages t) = true) :
    vfs_wait_for_availability slotsAt maxPolls = (true, t + 1) ∧
    rb_monitor_and_book pages clients book maxClients maxPolls
      = ((clients.take maxClients).map book, t + 1) ∧
    t + 1 ≤ maxPolls := by
  refine ⟨?_, ?_, by omega⟩
  · have := vfs_wait_go_first_pos slotsAt t maxPolls 0 ht
      (by intro j hj; simpa using hpre j hj) (by simpa using hpos)
    simpa [vfs_wait_for_availability] using this
  · have := rb_monitor_go_first_pos pages clients book maxClients t maxPolls 0 ht
      (by intro j hj; simpa using hpre2 j hj) (by simpa using hcf)
      (by simpa using hav)
    simpa [rb_monitor_and_book] using this

/-- C4 witness: with slots first detected at cycle 1 of a 4-cycle window,
the `book_vfs` watch returns `True` after 2 polls and the `run_booking`
monitor books both queued clients after 2 checks. -/
theorem C4_witness :
    vfs_wait_for_availability c4slots 4 = (true, 2) ∧
    rb_monitor_and_book c4pages c4clients c4book 5 4 = ([9, 10], 2) ∧
    1 + 1 ≤ 4 := by
  have h := C4_first_positive_cycle c4slots c4pages c4clients c4book 5 4 1
    (by decide) (by decide) (by decide) (by decide) (by decide) (by decide)
  exact ⟨h.1, by rw [h.2.1]; rfl, h.2.2⟩

/-! ## C2 — Submitted-Unconfirmed classification -/

/-- C2 counterexample: in `run_booking.book_client`, a run where no
extractor finds a reference and the final URL has moved off both the
booking-form path and the login path is coerced to success (`Booked`) with
the synthetic reference "CONFIRMED" — not reported as a distinct
Submitted-Unconfirmed state as the claim requires. -/
theorem C2_counterexample :
    rb_extract_ref c2env = some "CONFIRMED" ∧
    (rb_book_client_outcome c2env).success = true ∧
    (rb_book_client_outcome c2env).reference = some "CONFIRMED" :=
  ⟨rfl, rfl, rfl⟩

/-- C2 amended: in `unified_booking.book_client`, a submitted run (login
and steps 1–2 succeeded) with no reference text is reported as SUBMITTED,
a terminal state distinct from both BOOKED and FAILED, and BOOKED is
reported exactly when a reference was extracted; `run_booking.book_client`
in contrast coerces the no-reference off-form case to success (see the
counterexample). -/
theorem C2_amended (ref : Option String) :
    u_book_client_status true true true none = UStatus.SUBMITTED ∧
    UStatus.SUBMITTED ≠ UStatus.BOOKED ∧
    UStatus.SUBMITTED ≠ UStatus.FAILED ∧
    (u_book_client_status true true true ref = UStatus.BOOKED ↔
      ∃ r, ref = some r) := by
  refine ⟨rfl, by decide, by decide, ?_⟩
  cases ref <;> simp [u_book_client_status]

/-! ## C3 — slot-selection policy -/

/-- C3 counterexample: for subject ordinal 1 and slot list [10, 20, 30]
(N = 3), the claim's policy picks index 1 mod 3 = 1, i.e. slot 20, but
`unified_booking.do_step3_book_appointment` always clicks the first
available slot, slot 10. -/
theorem C3_counterexample :
    unified_choose_slot [10, 20, 30] = some 10 ∧
    vfs_choose_slot 1 [10, 20, 30] = some 20 ∧ (10 : Nat) ≠ 20 := by
  decide

/-- C3 amended: `book_vfs.fill_booking_form` deterministically picks the
slot at index `ordinal mod N` for a nonempty slot list, so distinct
ordinals below N pick distinct indices; `unified_booking`'s step 3,
however, always picks the first available slot regardless of ordinal. -/
theorem C3_amended (i j : Nat) (slots : List Nat) (h : slots ≠ [])
    (hi : i < slots.length) (hj : j < slots.length) (hij : i ≠ j) :
    vfs_choose_slot i slots = slots.get? (i % slots.length) ∧
    vfs_slot_index i slots ≠ vfs_slot_index j slots ∧
    unified_choose_slot slots = slots.head? := by
  refine ⟨?_, ?_, rfl⟩
  · simp [vfs_choose_slot, vfs_slot_index, h]
  · simpa [vfs_slot_index, Nat.mod_eq_of_lt hi, Nat.mod_eq_of_lt hj] using hij

/-- C3 witness: ordinals 0 and 1 on the two-slot list [5, 6] pick indices
0 and 1 respectively. -/
theorem C3_witness :
    vfs_choose_slot 0 [5, 6] = [5, 6].get? (0 % 2) ∧
    vfs_slot_index 0 [5, 6] ≠ vfs_slot_index 1 [5, 6] ∧
    unified_choose_slot [5, 6] = [5, 6].head? :=
  C3_amended 0 1 [5, 6] (by decide) (by decide) (by decide) (by decide)

/-! ## C5 — challenge-wait timeout handling -/

/-- C5 counterexample: `run_booking.do_login` on a page that would log in
perfectly returns failure when the initial Cloudflare challenge never
clears within `wait_cf_pass`'s budget — the challenge-wait timeout alone
hard-fails the login (and `main` then aborts the run); without the
challenge the very same page logs in successfully. -/
theorem C5_counterexample :
    rb_do_login cfAlwaysOn rbGoodLogin = false ∧
    rb_do_login cfAlwaysOn rbGoodLoginNoCf = true := by
  decide

/-- C5 amended: in `unified_booking`, `_wait_cf` does time out on a stuck
interstitial (returning False), but every caller discards that Boolean:
`do_login`'s outcome is independent of the challenge-clearance signal, so
a challenge-wait timeout never fails the operation there.  In
`run_booking`, by contrast, `do_login` (and `book_client`) hard-fail on
the timeout (see the counterexample). -/
theorem C5_amended (cf cf' : Nat → Bool) (p : ULoginPage) :
    u_wait_cf_run cfAlwaysOn = false ∧ u_do_login cf p = u_do_login cf' p :=
  ⟨by decide, rfl⟩

/-! ## C7 — browsing-context isolation -/

/-- C7 counterexample: in `run_booking.monitor_and_book` and
`book_vfs.VFSBot.run`, subjects 0 and 1 are driven through the same
browsing context (the one shared driver), violating the claimed
no-sharing invariant. -/
theorem C7_counterexample :
    rb_subject_context 0 0 = rb_subject_context 0 1 ∧
    vfs_subject_context 0 0 = vfs_subject_context 0 1 ∧ (0 : Nat) ≠ 1 := by
  decide

/-- C7 amended: in `unified_booking`, distinct subjects get distinct
browsing contexts — each `book_client` invocation launches its own Chrome
instance with its own per-ordinal profile directory; the single-driver
scripts `run_booking` and `book_vfs` share one context across all subjects
(see the counterexample). -/
theorem C7_amended (i j : Nat) (h : i ≠ j) :
    u_client_context i ≠ u_client_context j :=
  fun he => h (congrArg BrowsingContext.instanceId he)

/-- C7 witness: subjects 0 and 1 get distinct unified-booking contexts. -/
theorem C7_witness : u_client_context 0 ≠ u_client_context 1 :=
  C7_amended 0 1 (by decide)

/-! ## C6 — orchestrator summary completeness -/

/-- The subject index of a parallel-branch row is the index of the subject
it was submitted for, whichever branch produced it. -/
theorem u_run_subject_idx (outcome : Nat → UStatus) (raises : Nat → Bool)
    (i : Nat) : (u_run_subject outcome raises i).idx = i := by
  unfold u_run_subject u_placeholder
  split <;> rfl

/-- The parallel summary's subject indices are exactly the completion
order list. -/
theorem u_parallel_idx_map (outcome : Nat → UStatus) (raises : Nat → Bool)
    (order : List Nat) :
    (u_orchestrate_parallel outcome raises order).map USubjResult.idx = order := by
  unfold u_orchestrate_parallel
  rw [List.map_map]
  have h : (USubjResult.idx ∘ u_run_subject outcome raises) = id :=
    funext fun i => u_run_subject_idx outcome raises i
  rw [h, List.map_id]

/-- The sequential summary's subject indices are `0, …, k-1` in order. -/
theorem u_sequential_idx_map (outcome : Nat → UStatus) (k : Nat) :
    (u_orchestrate_sequential outcome k).map USubjResult.idx = List.range k := by
  unfold u_orchestrate_sequential
  rw [List.map_map]
  have h : (USubjResult.idx ∘ fun i => (⟨i, outcome i⟩ : USubjResult)) = id :=
    funext fun i => rfl
  rw [h, List.map_id]

/-- C6 counterexample: `run_booking.monitor_and_book` with one queued
client and a page that never shows availability returns an empty result
list when the window expires — the end-of-run summary then has 0 entries
for a subject list of size 1, so it does not enumerate every subject. -/
theorem C6_counterexample :
    (rb_monitor_and_book c6pages [7] c6book 5 3).1 = [] ∧
    ([7] : List Nat).length = 1 ∧
    ((rb_monitor_and_book c6pages [7] c6book 5 3).1).length ≠ ([7] : List Nat).length := by
  refine ⟨?_, rfl, ?_⟩ <;> decide

/-- C6 amended: in `unified_booking.main`, both disciplines emit exactly
`k` results for `k` loaded subjects, and each subject ordinal appears
exactly once in the summary, regardless of per-subject failure statuses
and of runner threads raising (raised futures become FAILED placeholder
rows); `run_booking.monitor_and_book`, in contrast, emits an empty
summary when the monitoring window expires without availability (see the
counterexample). -/
theorem C6_amended (outcome : Nat → UStatus) (raises : Nat → Bool)
    (k : Nat) (order : List Nat) (hperm : order.Perm (List.range k)) :
    (u_orchestrate_sequential outcome k).length = k ∧
    (u_orchestrate_parallel outcome raises order).length = k ∧
    (∀ i, i < k →
      ((u_orchestrate_sequential outcome k).map USubjResult.idx).count i = 1 ∧
      ((u_orchestrate_parallel outcome raises order).map USubjResult.idx).count i = 1) := by
  refine ⟨?_, ?_, ?_⟩
  · simp [u_orchestrate_sequential]
  · simpa [u_orchestrate_parallel] using hperm.length_eq
  · intro i hi
    have hmem : i ∈ List.range k := List.mem_range.mpr hi
    have hcount : (List.range k).count i = 1 :=
      List.count_eq_one_of_mem (List.nodup_range k) hmem
    constructor
    · rw [u_sequential_idx_map]
      exact hcount
    · rw [u_parallel_idx_map]
      rw [hperm.count_eq]
      exact hcount

/-- C6 witness: two subjects, subject 0's thread raises and completion
order is reversed: both summaries still have 2 entries with each subject
ordinal exactly once. -/
theorem C6_witness :
    (u_orchestrate_sequential c6outcome 2).length = 2 ∧
    (u_orchestrate_parallel c6outcome c6raises c6order).length = 2 ∧
    ((u_orchestrate_parallel c6outcome c6raises c6order).map USubjResult.idx).count 0 = 1 := by
  have h := C6_amended c6outcome c6raises 2 c6order (by decide)
  exact ⟨h.1, h.2.1, (h.2.2 0 (by decide)).2⟩

/-! ## C9 — exception containment of the form operations -/

/-- A try/except with an `.ok` handler never lets an exception escape. -/
theorem pyTry_ok (body : Except Unit Bool) (b : Bool) :
    exceptOk (pyTryBool body (.ok b)) = true := by
  cases body <;> rfl

/-- `_native_select` always returns a Boolean. -/
theorem u_native_select_ok (env : NativeSelEnv) (t : String) :
    exceptOk (u_native_select env t) = true := by
  unfold u_native_select
  split
  · rfl
  · split
    · rfl
    · exact pyTry_ok _ _

/-- `_js_fill` always returns a Boolean. -/
theorem u_js_fill_ok (env : JsFillEnv) (v : String) :
    exceptOk (u_js_fill env v) = true := by
  unfold u_js_fill
  split
  · rfl
  · split
    · rfl
    · cases hs : env.script1 with
      | ok b =>
        cases b
        · simpa [runPrim, hs] using pyTry_ok
            (do
              runPrim env.clearScript
              runPrim env.keysSeq
              pure true) false
        · simp [runPrim, hs, exceptOk]
      | exn =>
        simpa [runPrim, hs] using pyTry_ok
          (do
            runPrim env.clearScript
            runPrim env.keysSeq
            pure true) false

/-- `_mat_select` always returns a Boolean. -/
theorem u_mat_select_ok (env : MatSelEnv) (t : String) :
    exceptOk (u_mat_select env t) = true := by
  unfold u_mat_select
  split
  · rfl
  · split
    · have h := u_native_select_ok env.nsFallback t
      cases hn : u_native_select env.nsFallback t with
      | ok b => cases b <;> simp [hn, exceptOk]
      | error e => rw [hn] at h; simp [exceptOk] at h
    · exact pyTry_ok _ _

/-- `run_booking.mat_select` always returns a Boolean. -/
theorem rb_mat_select_ok (env : RbMatSelEnv) :
    exceptOk (rb_mat_select env) = true := by
  unfold rb_mat_select
  split
  · rfl
  · exact pyTry_ok _ _

/-- C9: every invocation of the modelled field-fill and option-select
operations (`unified_booking._js_fill`, `unified_booking._mat_select`,
`run_booking.mat_select`) completes with a success/failure Boolean for
every combination of internal faults — no exception escapes to the
caller. -/
theorem C9_no_exception_escape (e1 : JsFillEnv) (v : String)
    (e2 : MatSelEnv) (t : String) (e3 : RbMatSelEnv) :
    exceptOk (u_js_fill e1 v) = true ∧
    exceptOk (u_mat_select e2 t) = true ∧
    exceptOk (rb_mat_select e3) = true :=
  ⟨u_js_fill_ok e1 v, u_mat_select_ok e2 t, rb_mat_select_ok e3⟩

/-! ## C10 — `_norm_date` postconditions -/

/-- A digit character is distinct from any non-digit character. -/
theorem digit_ne_char (c d : Char) (h : c.isDigit = true)
    (hd : d.isDigit = false) : c ≠ d := by
  intro he
  rw [he] at h
  rw [h] at hd
  exact Bool.noConfusion hd

/-- Digit characters are not Python whitespace. -/
theorem not_ws_of_digit (c : Char) (h : c.isDigit = true) : pyWs c = false := by
  have a1 : c ≠ ' ' := digit_ne_char c ' ' h (by decide)
  have a2 : c ≠ '\t' := digit_ne_char c '\t' h (by decide)
  have a3 : c ≠ '\n' := digit_ne_char c '\n' h (by decide)
  have a4 : c ≠ '\r' := digit_ne_char c '\r' h (by decide)
  have a5 : c ≠ '\x0B' := digit_ne_char c '\x0B' h (by decide)
  have a6 : c ≠ '\x0C' := digit_ne_char c '\x0C' h (by decide)
  simp [pyWs, a1, a2, a3, a4, a5, a6]

/-- `pyDigits` on two digit characters. -/
theorem pyDigits_two (c1 c2 : Char) (h1 : c1.isDigit = true)
    (h2 : c2.isDigit = true) :
    pyDigits [c1, c2] = some ((c1.toNat - 48) * 10 + (c2.toNat - 48)) := by
  have u2 : c2 ≠ '_' := digit_ne_char c2 '_' h2 (by decide)
  simp [pyDigits, pyDigitsAux, digitVal, h1, h2, u2]

/-- `pyInt` on a two-digit string yields its decimal value. -/
theorem pyInt_two_digits (c1 c2 : Char) (h1 : c1.isDigit = true)
    (h2 : c2.isDigit = true) :
    pyInt [c1, c2] = some (Int.ofNat ((c1.toNat - 48) * 10 + (c2.toNat - 48))) := by
  have w1 := not_ws_of_digit c1 h1
  have w2 := not_ws_of_digit c2 h2
  have hp : c1 ≠ '+' := digit_ne_char c1 '+' h1 (by decide)
  have hm : c1 ≠ '-' := digit_ne_char c1 '-' h1 (by decide)
  have hstrip : pyStrip [c1, c2] = [c1, c2] := by
    simp [pyStrip, List.dropWhile, w1, w2]
  simp [pyInt, hstrip, hp, hm, pyDigits_two c1 c2 h1 h2]

/-- `slash_decide` with both fields parsed compares the two values. -/
theorem slash_decide_some (x y : Int) (keep swap : List Char) :
    slash_decide (some x) (some y) keep swap =
      if x ≤ 31 ∧ y ≤ 12 then .ok keep else .ok swap := by
  simp only [slash_decide]
  by_cases hx : x ≤ 31
  · by_cases hy : y ≤ 12
    · rw [if_pos hx, if_pos hy, if_pos ⟨hx, hy⟩]
    · rw [if_pos hx, if_neg hy, if_neg (fun hc => hy hc.2)]
  · rw [if_neg hx, if_neg (fun hc => hx hc.1)]

/-- `slash_decide` with an unparseable first field raises. -/
theorem slash_decide_none (pm : Option Int) (keep swap : List Char) :
    slash_decide none pm keep swap = .error () :=
  rfl

/-- C10 counterexample: the claim says every string other than the empty
string and the two 10-character shapes is returned unchanged, but
`_norm_date " x "` strips to "x" (≠ " x "), and `_norm_date "ab/cd/efgh"`
(a 10-character slash shape without numeric fields, hence an "other"
string under the claim) raises `ValueError` from `int("ab")` instead of
returning the input. -/
theorem C10_counterexample :
    norm_date_str " x " = .ok "x" ∧ (" x " : String) ≠ "x" ∧
    norm_date_str "ab/cd/efgh" = .error () :=
  ⟨rfl, by decide, rfl⟩

/-- C10 amended: `_norm_date` first strips the input; on the stripped
string `r`: empty is returned as is; the 10-character digit shape
NN/NN/NNNN is returned unchanged when its first field is at most 31 and
its second at most 12 and otherwise has the first two fields swapped; a
10-character slash shape whose first field is not an integer literal
raises (`.error`); the 10-character shape with "-" at positions 4 and 7 is
rewritten positionally to DD/MM/YYYY; every other stripped string is
returned unchanged (as the stripped string, not the original input). -/
theorem C10_amended (raw r : List Char) (hr : pyStrip raw = r) :
    (r = [] → norm_date raw = .ok []) ∧
    (∀ d1 d2 m1 m2 y1 y2 y3 y4 : Char,
      r = [d1, d2, '/', m1, m2, '/', y1, y2, y3, y4] →
      d1.isDigit = true → d2.isDigit = true →
      m1.isDigit = true → m2.isDigit = true →
      norm_date raw = .ok (
        if (d1.toNat - 48) * 10 + (d2.toNat - 48) ≤ 31 ∧
           (m1.toNat - 48) * 10 + (m2.toNat - 48) ≤ 12
        then r
        else [m1, m2, '/', d1, d2, '/', y1, y2, y3, y4])) ∧
    (∀ a1 a2 a3 a4 b1 b2 e1 e2 : Char,
      r = [a1, a2, a3, a4, '-', b1, b2, '-', e1, e2] →
      a1.isDigit = true → a2.isDigit = true → a3.isDigit = true →
      a4.isDigit = true → b1.isDigit = true → b2.isDigit = true →
      e1.isDigit = true → e2.isDigit = true →
      norm_date raw = .ok [e1, e2, '/', b1, b2, '/', a1, a2, a3, a4]) ∧
    (r ≠ [] → r.length ≠ 10 → norm_date raw = .ok r) ∧
    (r.length = 10 → ¬(r.get? 2 = some '/' ∧ r.get? 5 = some '/') →
      ¬(r.get? 4 = some '-' ∧ r.get? 7 = some '-') → norm_date raw = .ok r) ∧
    (r.length = 10 → r.get? 2 = some '/' → r.get? 5 = some '/' →
      pyInt (r.take 2) = none → norm_date raw = .error ()) := by
  subst hr
  refine ⟨?_, ?_, ?_, ?_, ?_, ?_⟩
  · intro h
    simp [norm_date, norm_date_core, h]
  · intro d1 d2 m1 m2 y1 y2 y3 y4 h hd1 hd2 hm1 hm2
    rw [norm_date, h]
    rw [show norm_date_core [d1, d2, '/', m1, m2, '/', y1, y2, y3, y4] =
      slash_decide (pyInt [d1, d2]) (pyInt [m1, m2])
        [d1, d2, '/', m1, m2, '/', y1, y2, y3, y4]
        [m1, m2, '/', d1, d2, '/', y1, y2, y3, y4] from rfl]
    rw [pyInt_two_digits d1 d2 hd1 hd2, pyInt_two_digits m1 m2 hm1 hm2,
      slash_decide_some]
    by_cases hC : (d1.toNat - 48) * 10 + (d2.toNat - 48) ≤ 31 ∧
        (m1.toNat - 48) * 10 + (m2.toNat - 48) ≤ 12
    · rw [if_pos ⟨Int.ofNat_le.mpr hC.1, Int.ofNat_le.mpr hC.2⟩, if_pos hC]
    · rw [if_neg (fun hc => hC ⟨Int.ofNat_le.mp hc.1, Int.ofNat_le.mp hc.2⟩),
        if_neg hC]
  · intro a1 a2 a3 a4 b1 b2 e1 e2 h ha1 ha2 ha3 ha4 hb1 hb2 he1 he2
    rw [norm_date, h]
    have hslash : a3 ≠ '/' := digit_ne_char a3 '/' ha3 (by decide)
    rw [norm_date_core]
    rw [if_neg (by simp)]
    rw [if_neg (fun hc => hslash (by
      have := hc.2.1
      simpa using this))]
    rw [if_pos (by refine ⟨rfl, by simp, by simp⟩)]
    rfl
  · intro hne hlen
    rw [norm_date, norm_date_core]
    rw [if_neg hne]
    rw [if_neg (fun hc => hlen hc.1)]
    rw [if_neg (fun hc => hlen hc.1)]
  · intro hlen hslash hdash
    have hne : pyStrip raw ≠ [] := by
      intro h
      rw [h] at hlen
      simp at hlen
    rw [norm_date, norm_date_core]
    rw [if_neg hne]
    rw [if_neg (fun hc => hslash ⟨hc.2.1, hc.2.2⟩)]
    rw [if_neg (fun hc => hdash ⟨hc.2.1, hc.2.2⟩)]
  · intro hlen h2 h5 hnone
    have hne : pyStrip raw ≠ [] := by
      intro h
      rw [h] at hlen
      simp at hlen
    rw [norm_date, norm_date_core]
    rw [if_neg hne]
    rw [if_pos ⟨hlen, h2, h5⟩]
    simp only [hnone, slash_decide_none]

/-- C10 witness: `" 25/12/1999 "` strips to the digit slash shape with
fields 25 ≤ 31 and 12 ≤ 12 and is returned unchanged (as the stripped
string). -/
theorem C10_witness : norm_date " 25/12/1999 ".data = .ok "25/12/1999".data := by
  have h := (C10_amended " 25/12/1999 ".data "25/12/1999".data rfl).2.1
    '2' '5' '1' '2' '1' '9' '9' '9' rfl
    (by decide) (by decide) (by decide) (by decide)
  rw [h]
  rfl
